import Mathlib

/-!
Shallow embedding of the `assert_cmd` crate's `src/assert.rs`.

The crate wraps a captured `process::Output` in an `Assert` value exposing
chainable assertion methods (`success`, `failure`, `interrupted`, `code`,
`stdout`, `stderr`).  Each method either returns the wrapper unchanged or
panics with a message of the form `<header>\n<Display of the wrapper>`.

Modelling decisions:
* Byte sequences (`Vec<u8>`) are `List Nat`; Rust `String`s are modelled by
  their UTF-8 byte sequences.
* A Rust panic is modelled by `Except.error msg` where `msg` is the byte
  sequence of the panic message; returning `self` is `Except.ok`.
* `process::ExitStatus` is modelled by its two observations used in the
  source: `success()` (a `Bool`) and `code()` (an `Option Int`).
* Predicates (`predicates::Predicate<T>`, an external collaborator with
  contract `eval : T -> bool`) are arbitrary Lean functions into `Bool`.
* The helper `errors::output_fmt` is imported by `assert.rs` but its source
  file is not part of this snapshot; it is modelled from the spec below.
-/

/-- Byte sequences (`Vec<u8>` / `&[u8]` in the source). -/
abbrev Bytes := List Nat

/-- UTF-8 bytes of an ASCII string literal (every literal appearing in the
source's format strings is ASCII, where `Char.toNat` coincides with the
single UTF-8 code unit). -/
def asciiBytes (s : String) : Bytes := s.toList.map Char.toNat

/-- Whether a byte is a UTF-8 continuation byte (`0x80..=0xBF`). -/
def utf8Cont (b : Nat) : Bool := 0x80 ≤ b && b < 0xC0

/-- Validity of a byte sequence as UTF-8, mirroring the acceptance of Rust's
`str::from_utf8`: rejects overlong encodings, surrogate code points and code
points above `0x10FFFF`. -/
def utf8Valid : Bytes → Bool
  | [] => true
  | b :: rest =>
    if b < 0x80 then utf8Valid rest
    else if b < 0xC2 then false
    else if b < 0xE0 then
      match rest with
      | c1 :: rest2 => utf8Cont c1 && utf8Valid rest2
      | [] => false
    else if b = 0xE0 then
      match rest with
      | c1 :: c2 :: rest2 =>
        (0xA0 ≤ c1 && c1 < 0xC0) && utf8Cont c2 && utf8Valid rest2
      | _ => false
    else if b = 0xED then
      match rest with
      | c1 :: c2 :: rest2 =>
        (0x80 ≤ c1 && c1 < 0xA0) && utf8Cont c2 && utf8Valid rest2
      | _ => false
    else if b < 0xF0 then
      match rest with
      | c1 :: c2 :: rest2 => utf8Cont c1 && utf8Cont c2 && utf8Valid rest2
      | _ => false
    else if b = 0xF0 then
      match rest with
      | c1 :: c2 :: c3 :: rest2 =>
        (0x90 ≤ c1 && c1 < 0xC0) && utf8Cont c2 && utf8Cont c3 && utf8Valid rest2
      | _ => false
    else if b < 0xF4 then
      match rest with
      | c1 :: c2 :: c3 :: rest2 =>
        utf8Cont c1 && utf8Cont c2 && utf8Cont c3 && utf8Valid rest2
      | _ => false
    else if b = 0xF4 then
      match rest with
      | c1 :: c2 :: c3 :: rest2 =>
        (0x80 ≤ c1 && c1 < 0x90) && utf8Cont c2 && utf8Cont c3 && utf8Valid rest2
      | _ => false
    else false

/-- Rust's `Debug` rendering of a `Vec<u8>` (as used by the `:?` format
specifier): the decimal bytes, comma-separated, between square brackets. -/
def debugBytes (b : Bytes) : Bytes :=
  asciiBytes ("[" ++ String.intercalate ", " (b.map (fun n => toString n)) ++ "]")

/-- Executable contiguous-subsequence test: does `needle` occur contiguously
inside the second argument?  Used to state "the panic message contains …". -/
def occursIn (needle : Bytes) : Bytes → Bool
  | [] => needle.isEmpty
  | a :: t => needle.isPrefixOf (a :: t) || occursIn needle t

/-- The observations of `process::ExitStatus` used by `assert.rs`:
`status.success()` and `status.code()`. -/
structure ExitStatus where
  success : Bool
  code : Option Int
  deriving DecidableEq

/-- `process::Output`: exit status plus captured stdout and stderr bytes. -/
structure Output where
  status : ExitStatus
  stdout : Bytes
  stderr : Bytes
  deriving DecidableEq

/-- The `Assert` struct of `assert.rs`: a captured output plus optional
command-line and stdin context (the `cmd : Option<String>` field is modelled
by the string's UTF-8 bytes). -/
structure Assert where
  output : Output
  cmd : Option Bytes
  stdin : Option Bytes
  deriving DecidableEq

/-- The `command=` line written by `Display for Assert` when `cmd` is set. -/
def cmdLine (c : Bytes) : Bytes :=
  asciiBytes "command=`" ++ c ++ asciiBytes "`\n"

/-- The `stdin=` line written by `Display for Assert` when `stdin` is set:
the bytes are written as decoded text when they are valid UTF-8
(`str::from_utf8` succeeds) and with the `Debug` escape otherwise. -/
def stdinLine (s : Bytes) : Bytes :=
  if utf8Valid s then asciiBytes "stdin=```" ++ s ++ asciiBytes "```\n"
  else asciiBytes "stdin=```" ++ debugBytes s ++ asciiBytes "```\n"

/-- A stdout/stderr buffer as rendered by the output formatter: decoded text
when valid UTF-8, escaped bytes otherwise. -/
def renderBuf (b : Bytes) : Bytes :=
  if utf8Valid b then b else debugBytes b

/-- Modelled from the spec: the Output Formatter (`errors::output_fmt`),
whose source file is not included in this repository snapshot (`assert.rs`
only imports it).  Per the spec it renders, in order: the exit status line
(with the exit code when present, and an explicit terminated-without-exit-code
marker when the process was interrupted), then the standard-output content and
the standard-error content, each decoded as text when valid UTF-8 and shown
as an escaped byte representation otherwise; it is a pure, total function of
the captured result. -/
def output_fmt (o : Output) : Bytes :=
  (match o.status.code with
   | some c => asciiBytes "code=" ++ asciiBytes (toString c) ++ asciiBytes "\n"
   | none => asciiBytes "code=<terminated without exit code>\n")
  ++ asciiBytes "stdout=```" ++ renderBuf o.stdout ++ asciiBytes "```\n"
  ++ asciiBytes "stderr=```" ++ renderBuf o.stderr ++ asciiBytes "```\n"

/-- The command-context line of the diagnostic envelope, when present. -/
def optCmdLine : Option Bytes → Bytes
  | some c => cmdLine c
  | none => []

/-- The stdin-context line of the diagnostic envelope, when present. -/
def optStdinLine : Option Bytes → Bytes
  | some s => stdinLine s
  | none => []

/-- The `Display` implementation for `Assert`: the command line when present,
the stdin line when present, then `output_fmt` of the captured output. -/
def Assert.render (a : Assert) : Bytes :=
  optCmdLine a.cmd ++ optStdinLine a.stdin ++ output_fmt a.output

/-- A panic message `panic!("<header>\n{}", self)`: header, newline, then the
`Display` rendering of the wrapper. -/
def panicMsg (hd : String) (a : Assert) : Bytes :=
  asciiBytes hd ++ asciiBytes "\n" ++ a.render

/-- `Assert::new`: wrap a captured output with no context. -/
def Assert.new (output : Output) : Assert := ⟨output, none, none⟩

/-- `impl OutputAssertExt for process::Output`: `output.assert()`. -/
def Output.assert (o : Output) : Assert := Assert.new o

/-- `Assert::set_cmd`: attach the command line for additional context. -/
def Assert.set_cmd (a : Assert) (cmd : Bytes) : Assert :=
  ⟨a.output, some cmd, a.stdin⟩

/-- `Assert::set_stdin`: attach the stdin bytes for additional context. -/
def Assert.set_stdin (a : Assert) (stdin : Bytes) : Assert :=
  ⟨a.output, a.cmd, some stdin⟩

/-- `Assert::get_output`: access the contained output. -/
def Assert.get_output (a : Assert) : Output := a.output

/-- `Assert::success`: panics with `Unexpected failure` unless the status is
a success. -/
def Assert.success (a : Assert) : Except Bytes Assert :=
  if !a.output.status.success then .error (panicMsg "Unexpected failure" a)
  else .ok a

/-- `Assert::failure`: panics with `Unexpected success` if the status is a
success. -/
def Assert.failure (a : Assert) : Except Bytes Assert :=
  if a.output.status.success then .error (panicMsg "Unexpected success" a)
  else .ok a

/-- `Assert::interrupted`: panics with `Unexpected completion` if an exit
code is present. -/
def Assert.interrupted (a : Assert) : Except Bytes Assert :=
  if (a.output.status.code).isSome then .error (panicMsg "Unexpected completion" a)
  else .ok a

/-- `Assert::code`: panics with `Command interrupted` when no exit code is
present (before the predicate is consulted), and with
`Unexpected return code` when the predicate rejects the code. -/
def Assert.code (a : Assert) (pred : Int → Bool) : Except Bytes Assert :=
  match a.output.status.code with
  | none => .error (panicMsg "Command interrupted" a)
  | some actual_code =>
    if !pred actual_code then .error (panicMsg "Unexpected return code" a)
    else .ok a

/-- `Assert::stdout`: panics with `Unexpected stdout` when the predicate
rejects the captured stdout bytes. -/
def Assert.stdout (a : Assert) (pred : Bytes → Bool) : Except Bytes Assert :=
  if !pred a.output.stdout then .error (panicMsg "Unexpected stdout" a)
  else .ok a

/-- `Assert::stderr`: panics with `Unexpected stderr` when the predicate
rejects the captured stderr bytes. -/
def Assert.stderr (a : Assert) (pred : Bytes → Bool) : Except Bytes Assert :=
  if !pred a.output.stderr then .error (panicMsg "Unexpected stderr" a)
  else .ok a

/-- A not-yet-executed `process::Command`, abstracted to the two things
`assert.rs` uses: its `Debug` rendering (`format` with the `:?` specifier)
and the result of `self.output()` (either a captured output or a spawn
error). -/
structure Command where
  debugFmt : Bytes
  output : Except Bytes Output

/-- `impl OutputAssertExt for &mut process::Command`: run the command,
`unwrap` the spawn result (propagating the spawn error as a halt with no
diagnostic envelope), and wrap the output with the command's `Debug`
rendering as context. -/
def Command.assert (c : Command) : Except Bytes Assert :=
  match c.output with
  | .error e => .error e
  | .ok o => .ok ((Assert.new o).set_cmd c.debugFmt)

theorem isPrefixOf_self_append (n r : Bytes) : n.isPrefixOf (n ++ r) = true := by
  induction n with
  | nil => simp [List.isPrefixOf]
  | cons a t ih => simp [List.isPrefixOf, ih]

theorem occursIn_append_left (n r : Bytes) : occursIn n (n ++ r) = true := by
  cases n with
  | nil => cases r <;> simp [occursIn, List.isPrefixOf]
  | cons b m =>
    have h := isPrefixOf_self_append (b :: m) r
    simp only [List.cons_append] at h ⊢
    simp [occursIn, h]

theorem occursIn_append_right (n l t : Bytes) (h : occursIn n t = true) :
    occursIn n (l ++ t) = true := by
  induction l with
  | nil => simpa using h
  | cons a l ih => simp [occursIn, ih]

theorem occursIn_mid (n l r : Bytes) : occursIn n (l ++ (n ++ r)) = true :=
  occursIn_append_right n l (n ++ r) (occursIn_append_left n r)

theorem occursIn_header_panicMsg (hd : String) (a : Assert) :
    occursIn (asciiBytes hd) (panicMsg hd a) = true := by
  have h : panicMsg hd a = [] ++ (asciiBytes hd ++ (asciiBytes "\n" ++ a.render)) := by
    simp [panicMsg, List.append_assoc]
  rw [h]
  exact occursIn_mid _ _ _

/-- C1: for every captured result whose status is a success, `success` returns
the wrapper unchanged and `failure` halts; for every result whose status is a
failure, `success` halts with a message containing `Unexpected failure` and
`failure` returns the wrapper unchanged. -/
theorem success_and_failure_follow_status (r : Output) :
    ((Assert.new r).success = .ok (Assert.new r) ↔ r.status.success = true) ∧
    ((Assert.new r).failure = .ok (Assert.new r) ↔ r.status.success = false) ∧
    (r.status.success = false →
      ∃ e, (Assert.new r).success = .error e ∧
        occursIn (asciiBytes "Unexpected failure") e = true) ∧
    (r.status.success = true → ∃ e, (Assert.new r).failure = .error e) := by
  cases hs : r.status.success <;>
    simp [Assert.success, Assert.failure, Assert.new, hs, occursIn_header_panicMsg]

/-- Witness for C1 at a failed result (exit code 1) and a successful one. -/
theorem success_and_failure_follow_status_w :
    (∃ e, (Assert.new ⟨⟨false, some 1⟩, [], []⟩).success = .error e ∧
      occursIn (asciiBytes "Unexpected failure") e = true) ∧
    (∃ e, (Assert.new ⟨⟨true, some 0⟩, [], []⟩).failure = .error e) :=
  ⟨(success_and_failure_follow_status ⟨⟨false, some 1⟩, [], []⟩).2.2.1 rfl,
   (success_and_failure_follow_status ⟨⟨true, some 0⟩, [], []⟩).2.2.2 rfl⟩

/-- C2: `stdout p` returns the wrapper unchanged exactly when the predicate
accepts the captured stdout bytes, and otherwise halts with a message
containing `Unexpected stdout`; symmetrically for `stderr` with
`Unexpected stderr`. -/
theorem stdout_stderr_follow_predicate (r : Output) (p q : Bytes → Bool) :
    ((Assert.new r).stdout p = .ok (Assert.new r) ↔ p r.stdout = true) ∧
    (p r.stdout = false →
      ∃ e, (Assert.new r).stdout p = .error e ∧
        occursIn (asciiBytes "Unexpected stdout") e = true) ∧
    ((Assert.new r).stderr q = .ok (Assert.new r) ↔ q r.stderr = true) ∧
    (q r.stderr = false →
      ∃ e, (Assert.new r).stderr q = .error e ∧
        occursIn (asciiBytes "Unexpected stderr") e = true) := by
  cases hp : p r.stdout <;> cases hq : q r.stderr <;>
    simp [Assert.stdout, Assert.stderr, Assert.new, hp, hq, occursIn_header_panicMsg]

/-- Witness for C2 at a concrete result with rejecting predicates. -/
theorem stdout_stderr_follow_predicate_w :
    (∃ e, (Assert.new ⟨⟨true, some 0⟩, [104], [119]⟩).stdout (fun _ => false) = .error e ∧
      occursIn (asciiBytes "Unexpected stdout") e = true) ∧
    (∃ e, (Assert.new ⟨⟨true, some 0⟩, [104], [119]⟩).stderr (fun _ => false) = .error e ∧
      occursIn (asciiBytes "Unexpected stderr") e = true) :=
  ⟨(stdout_stderr_follow_predicate ⟨⟨true, some 0⟩, [104], [119]⟩
      (fun _ => false) (fun _ => false)).2.1 rfl,
   (stdout_stderr_follow_predicate ⟨⟨true, some 0⟩, [104], [119]⟩
      (fun _ => false) (fun _ => false)).2.2.2 rfl⟩

/-- C3 counterexample: on a signal-terminated result, `code` halts with the
message `Command interrupted` (capital C), which does not contain the
lowercase text `command interrupted` quoted by the claim. -/
theorem code_interrupted_lowercase_cex :
    (Assert.new ⟨⟨false, none⟩, [], []⟩).code (fun _ => true) =
      .error (panicMsg "Command interrupted" (Assert.new ⟨⟨false, none⟩, [], []⟩)) ∧
    occursIn (asciiBytes "command interrupted")
      (panicMsg "Command interrupted" (Assert.new ⟨⟨false, none⟩, [], []⟩)) = false :=
  ⟨rfl, by decide⟩

/-- C3 (amended: the messages are capitalized `Command interrupted` and
`Unexpected completion`): when the exit code is absent, `interrupted` returns
the wrapper unchanged and `code p` halts with a message containing
`Command interrupted`, independently of the predicate; when an exit code is
present, `interrupted` halts with a message containing
`Unexpected completion`. -/
theorem interrupted_and_code_on_signal (r : Output) (p : Int → Bool) :
    (r.status.code = none →
      (Assert.new r).interrupted = .ok (Assert.new r) ∧
      (∃ e, (Assert.new r).code p = .error e ∧
        occursIn (asciiBytes "Command interrupted") e = true) ∧
      (∀ q : Int → Bool, (Assert.new r).code p = (Assert.new r).code q)) ∧
    (∀ c : Int, r.status.code = some c →
      ∃ e, (Assert.new r).interrupted = .error e ∧
        occursIn (asciiBytes "Unexpected completion") e = true) := by
  constructor
  · intro hc
    refine ⟨?_, ⟨panicMsg "Command interrupted" (Assert.new r), ?_,
      occursIn_header_panicMsg _ _⟩, ?_⟩
    · simp [Assert.interrupted, Assert.new, hc]
    · simp [Assert.code, Assert.new, hc]
    · intro q
      simp [Assert.code, Assert.new, hc]
  · intro c hc
    refine ⟨panicMsg "Unexpected completion" (Assert.new r), ?_,
      occursIn_header_panicMsg _ _⟩
    simp [Assert.interrupted, Assert.new, hc]

/-- Witness for C3's amended theorem at a signal-terminated result and a
completed one. -/
theorem interrupted_and_code_on_signal_w :
    ((Assert.new ⟨⟨false, none⟩, [], []⟩).interrupted =
        .ok (Assert.new ⟨⟨false, none⟩, [], []⟩) ∧
      (∃ e, (Assert.new ⟨⟨false, none⟩, [], []⟩).code (fun _ => true) = .error e ∧
        occursIn (asciiBytes "Command interrupted") e = true) ∧
      (∀ q : Int → Bool, (Assert.new ⟨⟨false, none⟩, [], []⟩).code (fun _ => true) =
        (Assert.new ⟨⟨false, none⟩, [], []⟩).code q)) ∧
    (∃ e, (Assert.new ⟨⟨true, some 0⟩, [], []⟩).interrupted = .error e ∧
      occursIn (asciiBytes "Unexpected completion") e = true) :=
  ⟨(interrupted_and_code_on_signal ⟨⟨false, none⟩, [], []⟩ (fun _ => true)).1 rfl,
   (interrupted_and_code_on_signal ⟨⟨true, some 0⟩, [], []⟩ (fun _ => true)).2 0 rfl⟩

/-- C4 counterexample: when the exit code is present and the predicate rejects
it, `code` halts with the message `Unexpected return code` (capital U), which
does not contain the lowercase text `unexpected return code` quoted by the
claim. -/
theorem code_mismatch_lowercase_cex :
    (Assert.new ⟨⟨false, some 1⟩, [], []⟩).code (fun c => c == 0) =
      .error (panicMsg "Unexpected return code" (Assert.new ⟨⟨false, some 1⟩, [], []⟩)) ∧
    occursIn (asciiBytes "unexpected return code")
      (panicMsg "Unexpected return code" (Assert.new ⟨⟨false, some 1⟩, [], []⟩)) = false :=
  ⟨rfl, by decide⟩

/-- C4 (amended: the message is the capitalized `Unexpected return code`):
when the exit code is present, `code p` returns the wrapper unchanged exactly
when the predicate accepts the code, and halts with a message containing
`Unexpected return code` when the predicate rejects it. -/
theorem code_follows_predicate_when_present (r : Output) (c : Int) (p : Int → Bool)
    (h : r.status.code = some c) :
    ((Assert.new r).code p = .ok (Assert.new r) ↔ p c = true) ∧
    (p c = false →
      ∃ e, (Assert.new r).code p = .error e ∧
        occursIn (asciiBytes "Unexpected return code") e = true) := by
  cases hp : p c <;> simp [Assert.code, Assert.new, h, hp, occursIn_header_panicMsg]

/-- Witness for C4's amended theorem: exit code 1 against an equals-zero
predicate. -/
theorem code_follows_predicate_when_present_w :
    ∃ e, (Assert.new ⟨⟨false, some 1⟩, [], []⟩).code (fun c => c == 0) = .error e ∧
      occursIn (asciiBytes "Unexpected return code") e = true :=
  (code_follows_predicate_when_present ⟨⟨false, some 1⟩, [], []⟩ 1
    (fun c => c == 0) rfl).2 rfl

/-- C5: every failing assertion operation halts with a message consisting of
an operation-specific header followed by one fixed diagnostic envelope — the
command-context line when present, the stdin-context line when present, and
the formatted captured output — identical across all six operations. -/
theorem failure_envelope_uniform (a : Assert) (p : Int → Bool) (q1 q2 : Bytes → Bool)
    (e : Bytes)
    (h : a.success = .error e ∨ a.failure = .error e ∨ a.interrupted = .error e ∨
         a.code p = .error e ∨ a.stdout q1 = .error e ∨ a.stderr q2 = .error e) :
    ∃ hd : String, e = asciiBytes hd ++ asciiBytes "\n" ++
      (optCmdLine a.cmd ++ optStdinLine a.stdin ++ output_fmt a.output) := by
  rcases h with h | h | h | h | h | h
  · cases hs : a.output.status.success <;> simp [Assert.success, hs] at h
    exact ⟨"Unexpected failure", by rw [← h]; rfl⟩
  · cases hs : a.output.status.success <;> simp [Assert.failure, hs] at h
    exact ⟨"Unexpected success", by rw [← h]; rfl⟩
  · cases hc : a.output.status.code <;> simp [Assert.interrupted, hc] at h
    exact ⟨"Unexpected completion", by rw [← h]; rfl⟩
  · cases hc : a.output.status.code with
    | none =>
      simp [Assert.code, hc] at h
      exact ⟨"Command interrupted", by rw [← h]; rfl⟩
    | some c =>
      cases hp : p c <;> simp [Assert.code, hc, hp] at h
      exact ⟨"Unexpected return code", by rw [← h]; rfl⟩
  · cases hp : q1 a.output.stdout <;> simp [Assert.stdout, hp] at h
    exact ⟨"Unexpected stdout", by rw [← h]; rfl⟩
  · cases hp : q2 a.output.stderr <;> simp [Assert.stderr, hp] at h
    exact ⟨"Unexpected stderr", by rw [← h]; rfl⟩

/-- Witness for C5: a failing `success` call on a wrapper carrying both a
command context and a stdin context. -/
theorem failure_envelope_uniform_w :
    ∃ hd : String,
      panicMsg "Unexpected failure"
          ⟨⟨⟨false, some 1⟩, [], []⟩, some (asciiBytes "cmd"), some (asciiBytes "in")⟩ =
        asciiBytes hd ++ asciiBytes "\n" ++
          (optCmdLine (some (asciiBytes "cmd")) ++ optStdinLine (some (asciiBytes "in")) ++
            output_fmt ⟨⟨false, some 1⟩, [], []⟩) :=
  failure_envelope_uniform
    ⟨⟨⟨false, some 1⟩, [], []⟩, some (asciiBytes "cmd"), some (asciiBytes "in")⟩
    (fun _ => true) (fun _ => true) (fun _ => true) _ (Or.inl rfl)

/-- C6: a second `set_cmd` (respectively `set_stdin`) overwrites the first;
only the last-set value remains in the wrapper and hence in its rendered
diagnostic envelope. -/
theorem set_cmd_set_stdin_last_write_wins (w : Assert) (a b x y : Bytes) :
    (w.set_cmd a).set_cmd b = w.set_cmd b ∧
    (w.set_stdin x).set_stdin y = w.set_stdin y ∧
    ((w.set_cmd a).set_cmd b).render = (w.set_cmd b).render ∧
    ((w.set_stdin x).set_stdin y).render = (w.set_stdin y).render ∧
    ((w.set_cmd a).set_cmd b).cmd = some b ∧
    ((w.set_stdin x).set_stdin y).stdin = some y :=
  ⟨rfl, rfl, rfl, rfl, rfl, rfl⟩

theorem occursIn_stdout_output_fmt (o : Output) :
    occursIn (renderBuf o.stdout) (output_fmt o) = true := by
  have h : output_fmt o =
      ((match o.status.code with
        | some c => asciiBytes "code=" ++ asciiBytes (toString c) ++ asciiBytes "\n"
        | none => asciiBytes "code=<terminated without exit code>\n")
        ++ asciiBytes "stdout=```")
      ++ (renderBuf o.stdout ++ (asciiBytes "```\n" ++ (asciiBytes "stderr=```"
          ++ (renderBuf o.stderr ++ asciiBytes "```\n")))) := by
    simp [output_fmt, List.append_assoc]
  rw [h]
  exact occursIn_mid _ _ _

theorem occursIn_stderr_output_fmt (o : Output) :
    occursIn (renderBuf o.stderr) (output_fmt o) = true := by
  have h : output_fmt o =
      ((match o.status.code with
        | some c => asciiBytes "code=" ++ asciiBytes (toString c) ++ asciiBytes "\n"
        | none => asciiBytes "code=<terminated without exit code>\n")
        ++ (asciiBytes "stdout=```" ++ (renderBuf o.stdout ++ (asciiBytes "```\n"
          ++ asciiBytes "stderr=```"))))
      ++ (renderBuf o.stderr ++ asciiBytes "```\n") := by
    simp [output_fmt, List.append_assoc]
  rw [h]
  exact occursIn_mid _ _ _

/-- C7: byte-sequence fields of the diagnostic are rendered as the decoded
text (the bytes verbatim) when they are valid UTF-8 and as the escaped
`Debug` representation otherwise — for the stdin context line of the
envelope and for the stdout/stderr blocks of the formatted output; the
rendering functions are total, so no input makes them fail. -/
theorem diagnostic_utf8_rendering (a : Assert) (s : Bytes) (h : a.stdin = some s) :
    (utf8Valid s = true →
      occursIn (asciiBytes "stdin=```" ++ s ++ asciiBytes "```\n") a.render = true) ∧
    (utf8Valid s = false →
      occursIn (asciiBytes "stdin=```" ++ debugBytes s ++ asciiBytes "```\n")
        a.render = true) ∧
    (utf8Valid a.output.stdout = true →
      occursIn a.output.stdout (output_fmt a.output) = true) ∧
    (utf8Valid a.output.stdout = false →
      occursIn (debugBytes a.output.stdout) (output_fmt a.output) = true) ∧
    (utf8Valid a.output.stderr = true →
      occursIn a.output.stderr (output_fmt a.output) = true) ∧
    (utf8Valid a.output.stderr = false →
      occursIn (debugBytes a.output.stderr) (output_fmt a.output) = true) := by
  refine ⟨?_, ?_, ?_, ?_, ?_, ?_⟩
  · intro hv
    have hs2 : optStdinLine a.stdin =
        asciiBytes "stdin=```" ++ s ++ asciiBytes "```\n" := by
      rw [h]; simp [optStdinLine, stdinLine, hv]
    simp only [Assert.render, hs2]
    rw [List.append_assoc (optCmdLine a.cmd)]
    exact occursIn_mid _ _ _
  · intro hv
    have hs2 : optStdinLine a.stdin =
        asciiBytes "stdin=```" ++ debugBytes s ++ asciiBytes "```\n" := by
      rw [h]; simp [optStdinLine, stdinLine, hv]
    simp only [Assert.render, hs2]
    rw [List.append_assoc (optCmdLine a.cmd)]
    exact occursIn_mid _ _ _
  · intro hv
    have hb : renderBuf a.output.stdout = a.output.stdout := by simp [renderBuf, hv]
    have := occursIn_stdout_output_fmt a.output
    rwa [hb] at this
  · intro hv
    have hb : renderBuf a.output.stdout = debugBytes a.output.stdout := by
      simp [renderBuf, hv]
    have := occursIn_stdout_output_fmt a.output
    rwa [hb] at this
  · intro hv
    have hb : renderBuf a.output.stderr = a.output.stderr := by simp [renderBuf, hv]
    have := occursIn_stderr_output_fmt a.output
    rwa [hb] at this
  · intro hv
    have hb : renderBuf a.output.stderr = debugBytes a.output.stderr := by
      simp [renderBuf, hv]
    have := occursIn_stderr_output_fmt a.output
    rwa [hb] at this

/-- Witness for C7: a wrapper whose stdin is the valid UTF-8 text `hello` and
whose captured stdout is the invalid UTF-8 sequence `[255, 254]`. -/
theorem diagnostic_utf8_rendering_w :
    occursIn (asciiBytes "stdin=```" ++ asciiBytes "hello" ++ asciiBytes "```\n")
      (Assert.render ⟨⟨⟨true, some 0⟩, [255, 254], []⟩, none,
        some (asciiBytes "hello")⟩) = true ∧
    occursIn (debugBytes [255, 254])
      (output_fmt ⟨⟨true, some 0⟩, [255, 254], []⟩) = true :=
  ⟨(diagnostic_utf8_rendering ⟨⟨⟨true, some 0⟩, [255, 254], []⟩, none,
      some (asciiBytes "hello")⟩ (asciiBytes "hello") rfl).1 (by decide),
   (diagnostic_utf8_rendering ⟨⟨⟨true, some 0⟩, [255, 254], []⟩, none,
      some (asciiBytes "hello")⟩ (asciiBytes "hello") rfl).2.2.2.1 (by decide)⟩

/-- C8: adapting a not-yet-executed command executes it; on a successful
spawn the produced wrapper holds the captured output with the command's
textual description as its command context (and no stdin context), while a
spawn failure halts the adaptation itself, propagating the spawn error with
no wrapper and no diagnostic envelope. -/
theorem command_assert_spec (c : Command) :
    (∀ o : Output, c.output = .ok o → c.assert = .ok ⟨o, some c.debugFmt, none⟩) ∧
    (∀ e : Bytes, c.output = .error e → c.assert = .error e) := by
  constructor <;> · intro x hx; simp [Command.assert, hx, Assert.new, Assert.set_cmd]

/-- Witness for C8: one command that spawns successfully and one whose spawn
fails. -/
theorem command_assert_spec_w :
    Command.assert ⟨asciiBytes "cmd", .ok ⟨⟨true, some 0⟩, [], []⟩⟩ =
      .ok ⟨⟨⟨true, some 0⟩, [], []⟩, some (asciiBytes "cmd"), none⟩ ∧
    Command.assert ⟨asciiBytes "cmd", .error (asciiBytes "spawn error")⟩ =
      .error (asciiBytes "spawn error") :=
  ⟨(command_assert_spec ⟨asciiBytes "cmd", .ok ⟨⟨true, some 0⟩, [], []⟩⟩).1 _ rfl,
   (command_assert_spec ⟨asciiBytes "cmd", .error (asciiBytes "spawn error")⟩).2 _ rfl⟩

/-- C9: whenever any of the six assertion operations succeeds, the wrapper it
returns is the very wrapper it consumed — same captured output, same command
context, same stdin context. -/
theorem successful_assertions_preserve_wrapper (a a2 : Assert) (p : Int → Bool)
    (q1 q2 : Bytes → Bool)
    (h : a.success = .ok a2 ∨ a.failure = .ok a2 ∨ a.interrupted = .ok a2 ∨
         a.code p = .ok a2 ∨ a.stdout q1 = .ok a2 ∨ a.stderr q2 = .ok a2) :
    a2 = a ∧ a2.output = a.output ∧ a2.cmd = a.cmd ∧ a2.stdin = a.stdin := by
  have ha : a2 = a := by
    rcases h with h | h | h | h | h | h
    · cases hs : a.output.status.success <;> simp [Assert.success, hs] at h
      exact h.symm
    · cases hs : a.output.status.success <;> simp [Assert.failure, hs] at h
      exact h.symm
    · cases hc : a.output.status.code <;> simp [Assert.interrupted, hc] at h
      exact h.symm
    · cases hc : a.output.status.code with
      | none => simp [Assert.code, hc] at h
      | some c =>
        cases hp : p c <;> simp [Assert.code, hc, hp] at h
        exact h.symm
    · cases hp : q1 a.output.stdout <;> simp [Assert.stdout, hp] at h
      exact h.symm
    · cases hp : q2 a.output.stderr <;> simp [Assert.stderr, hp] at h
      exact h.symm
  exact ⟨ha, by rw [ha], by rw [ha], by rw [ha]⟩

/-- Witness for C9: a succeeding `success` call returns its input wrapper. -/
theorem successful_assertions_preserve_wrapper_w :
    Assert.new ⟨⟨true, some 0⟩, [], []⟩ = Assert.new ⟨⟨true, some 0⟩, [], []⟩ ∧
    (Assert.new ⟨⟨true, some 0⟩, [], []⟩).output =
      (Assert.new ⟨⟨true, some 0⟩, [], []⟩).output ∧
    (Assert.new ⟨⟨true, some 0⟩, [], []⟩).cmd =
      (Assert.new ⟨⟨true, some 0⟩, [], []⟩).cmd ∧
    (Assert.new ⟨⟨true, some 0⟩, [], []⟩).stdin =
      (Assert.new ⟨⟨true, some 0⟩, [], []⟩).stdin :=
  successful_assertions_preserve_wrapper (Assert.new ⟨⟨true, some 0⟩, [], []⟩)
    (Assert.new ⟨⟨true, some 0⟩, [], []⟩) (fun _ => true) (fun _ => true)
    (fun _ => true) (Or.inl rfl)

/-- C10: a wrapper built by `Assert::new` has no command context and no stdin
context, and its rendered diagnostic is exactly the formatted output — the
command line and the stdin line of the envelope are emitted only when the
corresponding context was attached (checked concretely on an empty output:
neither marker occurs in the rendering). -/
theorem new_wrapper_has_no_context (o : Output) :
    (Assert.new o).cmd = none ∧ (Assert.new o).stdin = none ∧
    (Assert.new o).render = output_fmt o ∧
    occursIn (asciiBytes "command=`")
      (Assert.new ⟨⟨true, some 0⟩, [], []⟩).render = false ∧
    occursIn (asciiBytes "stdin=```")
      (Assert.new ⟨⟨true, some 0⟩, [], []⟩).render = false := by
  refine ⟨rfl, rfl, ?_, by decide, by decide⟩
  simp [Assert.render, Assert.new, optCmdLine, optStdinLine]
